import Mathlib

/-!
Verification of the Signaloid SDP8xx analog-conversion demo
(`src/main.c` and `src/utilities-config.h`) against its specification.

The C sources are shallowly embedded: `double` arithmetic is modelled by
exact rational arithmetic (`ℚ`), C arrays by total functions from `ℕ`,
possibly-uninitialized variables by `Option ℚ` (`none` models an
indeterminate value), and the external collaborators (UxHw sampling, the
CPU clock, the CSV writer, the allocator) by explicit oracle parameters.
The observable side effects of `main` are recorded as a trace of `Event`s.
-/

namespace SDP8xx

/-- Calibration constants from `src/utilities-config.h`, lines 27-41. -/
def kSensorCalibrationConstantSDP8x6Linear500Pa1 : ℚ := 750

/-- Calibration constant from `src/utilities-config.h`. -/
def kSensorCalibrationConstantSDP8x6Linear500Pa2 : ℚ := 150

/-- Calibration constant from `src/utilities-config.h`. -/
def kSensorCalibrationConstantSDP8x6Linear125Pa1 : ℚ := 190

/-- Calibration constant from `src/utilities-config.h`. -/
def kSensorCalibrationConstantSDP8x6Linear125Pa2 : ℚ := 38

/-- Calibration constant from `src/utilities-config.h`. -/
def kSensorCalibrationConstantSDP8x6Sqrt500Pa1 : ℚ := 0.5

/-- Calibration constant from `src/utilities-config.h`. -/
def kSensorCalibrationConstantSDP8x6Sqrt500Pa2 : ℚ := 0.4

/-- Calibration constant from `src/utilities-config.h`. -/
def kSensorCalibrationConstantSDP8x6Sqrt500Pa3 : ℚ := 1.25

/-- Calibration constant from `src/utilities-config.h`. -/
def kSensorCalibrationConstantSDP8x6Sqrt500Pa4 : ℚ := 525

/-- Calibration constant from `src/utilities-config.h`. -/
def kSensorCalibrationConstantSDP8x6Sqrt125Pa1 : ℚ := 0.5

/-- Calibration constant from `src/utilities-config.h`. -/
def kSensorCalibrationConstantSDP8x6Sqrt125Pa2 : ℚ := 0.4

/-- Calibration constant from `src/utilities-config.h`. -/
def kSensorCalibrationConstantSDP8x6Sqrt125Pa3 : ℚ := 1.25

/-- Calibration constant from `src/utilities-config.h`. -/
def kSensorCalibrationConstantSDP8x6Sqrt125Pa4 : ℚ := 133

/-- `InputDistributionIndex` enumerator from `src/utilities-config.h`. -/
def kInputDistributionIndexAout : ℕ := 0

/-- `InputDistributionIndex` enumerator from `src/utilities-config.h`. -/
def kInputDistributionIndexVdd : ℕ := 1

/-- `InputDistributionIndex` enumerator from `src/utilities-config.h`. -/
def kInputDistributionIndexMax : ℕ := 2

/-- `OutputDistributionIndex` enumerator from `src/utilities-config.h`. -/
def kOutputDistributionIndexCalibratedSensorOutputSDP8x6Linear500Pa : ℕ := 0

/-- `OutputDistributionIndex` enumerator from `src/utilities-config.h`. -/
def kOutputDistributionIndexCalibratedSensorOutputSDP8x6Linear125Pa : ℕ := 1

/-- `OutputDistributionIndex` enumerator from `src/utilities-config.h`. -/
def kOutputDistributionIndexCalibratedSensorOutputSDP8x6Sqrt500Pa : ℕ := 2

/-- `OutputDistributionIndex` enumerator from `src/utilities-config.h`. -/
def kOutputDistributionIndexCalibratedSensorOutputSDP8x6Sqrt125Pa : ℕ := 3

/-- `OutputDistributionIndex` enumerator from `src/utilities-config.h`:
`kOutputDistributionIndexCalibratedSensorOutputMax = 4`; `main.c` uses this
value of `outputSelect` as the "compute all variants" selection. -/
def kOutputDistributionIndexCalibratedSensorOutputMax : ℕ := 4

/-- Default uniform-distribution bound from `src/utilities-config.h`. -/
def kDefaultInputDistributionAoutUniformDistLow : ℚ := 1.3

/-- Default uniform-distribution bound from `src/utilities-config.h`. -/
def kDefaultInputDistributionAoutUniformDistHigh : ℚ := 1.7

/-- Default uniform-distribution bound from `src/utilities-config.h`. -/
def kDefaultInputDistributionVddUniformDistLow : ℚ := 3.5

/-- Default uniform-distribution bound from `src/utilities-config.h`. -/
def kDefaultInputDistributionVddUniformDistHigh : ℚ := 3.9

/-- Modelled from the spec: the success return code of the common utilities
library (`kCommonConstantReturnTypeSuccess`, not under `src/`); the spec
requires exit code `0` on success. -/
def kCommonConstantReturnTypeSuccess : ℕ := 0

/-- Modelled from the spec: the error return code of the common utilities
library (`kCommonConstantReturnTypeError`, not under `src/`); the spec only
requires it to be non-zero, so it is modelled as `1`. -/
def kCommonConstantReturnTypeError : ℕ := 1

/-- The fields of `CommonCommandLineArguments` (declared in the common
`utilities.h` of this repository, not under `src/`) that `main.c` reads
through `arguments.common`. -/
structure CommonCommandLineArguments where
  outputSelect : ℕ
  numberOfMonteCarloIterations : ℕ
  isMonteCarloMode : Bool
  isOutputJSONMode : Bool
  isBenchmarkingMode : Bool
  isTimingEnabled : Bool
  isWriteToFileEnabled : Bool
  outputFilePath : String

/-- `CommandLineArguments` as used by `main.c` (only the `common` part is
ever read by this program). -/
structure CommandLineArguments where
  common : CommonCommandLineArguments

/-- `MeanAndVariance` as declared by the common utilities library. -/
structure MeanAndVariance where
  mean : ℚ
  variance : ℚ
deriving DecidableEq

/-- The `sign` function of `src/main.c`, lines 41-50: `0` when the argument
is `0`, else `arg / |arg|` (`fabs` is `|·|` on `ℚ`). -/
def sign (arg : ℚ) : ℚ :=
  if arg = 0 then 0 else arg / |arg|

/-- `setInputDistributionsViaUxHwCall` of `src/main.c`, lines 57-69.  The two
`UxHwDoubleUniformDist` calls are external nondeterminism; the values they
return are supplied by the `uxhwDraw` oracle pair (first component: the draw
from `Uniform(1.3, 1.7)` for `Aout`; second: the draw from `Uniform(3.5, 3.9)`
for `Vdd`). -/
def setInputDistributionsViaUxHwCall (uxhwDraw : ℚ × ℚ) : ℕ → ℚ :=
  fun i =>
    if i = kInputDistributionIndexAout then uxhwDraw.1
    else if i = kInputDistributionIndexVdd then uxhwDraw.2
    else 0

/-- `calculateSensorOutput` of `src/main.c`, lines 82-126.  The local
`calibratedValue` starts indeterminate (`none`) and each taken branch both
assigns it and writes the corresponding entry of `outputDistributions`; the
function returns the pair (final `calibratedValue`, final output table). -/
def calculateSensorOutput (arguments : CommandLineArguments)
    (inputDistributions : ℕ → ℚ) (outputDistributions : ℕ → Option ℚ) :
    Option ℚ × (ℕ → Option ℚ) :=
  let Vdd := inputDistributions kInputDistributionIndexVdd
  let Aout := inputDistributions kInputDistributionIndexAout
  let calculateAllOutputs : Bool :=
    arguments.common.outputSelect == kOutputDistributionIndexCalibratedSensorOutputMax
  let st0 : Option ℚ × (ℕ → Option ℚ) := (none, outputDistributions)
  let st1 :=
    if calculateAllOutputs ||
        (arguments.common.outputSelect == kOutputDistributionIndexCalibratedSensorOutputSDP8x6Linear500Pa) then
      let calibratedValue :=
        kSensorCalibrationConstantSDP8x6Linear500Pa1 * Aout / Vdd -
          kSensorCalibrationConstantSDP8x6Linear500Pa2
      (some calibratedValue,
        Function.update st0.2 kOutputDistributionIndexCalibratedSensorOutputSDP8x6Linear500Pa
          (some calibratedValue))
    else st0
  let st2 :=
    if calculateAllOutputs ||
        (arguments.common.outputSelect == kOutputDistributionIndexCalibratedSensorOutputSDP8x6Linear125Pa) then
      let calibratedValue :=
        kSensorCalibrationConstantSDP8x6Linear125Pa1 * Aout / Vdd -
          kSensorCalibrationConstantSDP8x6Linear125Pa2
      (some calibratedValue,
        Function.update st1.2 kOutputDistributionIndexCalibratedSensorOutputSDP8x6Linear125Pa
          (some calibratedValue))
    else st1
  let st3 :=
    if calculateAllOutputs ||
        (arguments.common.outputSelect == kOutputDistributionIndexCalibratedSensorOutputSDP8x6Sqrt500Pa) then
      let calibratedValue :=
        sign ((Aout / Vdd) - kSensorCalibrationConstantSDP8x6Sqrt500Pa1) *
          ((Aout / (Vdd * kSensorCalibrationConstantSDP8x6Sqrt500Pa2)) -
            kSensorCalibrationConstantSDP8x6Sqrt500Pa3) ^ 2 *
          kSensorCalibrationConstantSDP8x6Sqrt500Pa4
      (some calibratedValue,
        Function.update st2.2 kOutputDistributionIndexCalibratedSensorOutputSDP8x6Sqrt500Pa
          (some calibratedValue))
    else st2
  let st4 :=
    if calculateAllOutputs ||
        (arguments.common.outputSelect == kOutputDistributionIndexCalibratedSensorOutputSDP8x6Sqrt125Pa) then
      let calibratedValue :=
        sign ((Aout / Vdd) - kSensorCalibrationConstantSDP8x6Sqrt125Pa1) *
          ((Aout / (Vdd * kSensorCalibrationConstantSDP8x6Sqrt125Pa2)) -
            kSensorCalibrationConstantSDP8x6Sqrt125Pa3) ^ 2 *
          kSensorCalibrationConstantSDP8x6Sqrt125Pa4
      (some calibratedValue,
        Function.update st3.2 kOutputDistributionIndexCalibratedSensorOutputSDP8x6Sqrt125Pa
          (some calibratedValue))
    else st3
  st4

/-- Modelled from the spec: `calculateMeanAndVarianceOfDoubleSamples` of the
common utilities library (not under `src/`).  Per the spec, the mean is the
arithmetic average of the samples and the variance is the mean squared
deviation (a single- or two-pass reduction), with variance ≥ 0. -/
def calculateMeanAndVarianceOfDoubleSamples (samples : List ℚ) (sampleCount : ℕ) :
    MeanAndVariance :=
  let mean := samples.sum / (sampleCount : ℚ)
  { mean := mean
    variance := ((samples.map (fun x => (x - mean) ^ 2)).sum) / (sampleCount : ℚ) }

/-- Models the C cast `(uint64_t)q` applied to the (nonnegative) scaled
elapsed-time values: truncation toward zero, which for nonnegative arguments
is the floor. -/
def castDoubleToUInt64 (q : ℚ) : ℕ :=
  (Int.floor q).toNat

/-- The observable side effects of `main` (`src/main.c`, lines 215-287).
`benchmarkLine` is the line printed at line 222; the
`printCalibratedValueAndProbabilities`, `printJSONFormattedOutput`,
`writeOutputDoubleDistributionsToCSV` and
`saveMonteCarloDoubleDataToDataDotOutFile` constructors record the
corresponding utilities-library calls; `printTiming` is the `printf` at line
259; `freeMonteCarloOutputSamples` records the `free` at line 286.
`Option` payloads are `none` when the value handed over by `main` was never
assigned (an uninitialized C variable). -/
inductive Event where
  | benchmarkLine (value : Option ℚ) (microseconds : Option ℕ)
  | printCalibratedValueAndProbabilities (value : Option ℚ) (name : String)
  | printJSONFormattedOutput
  | printTiming (seconds : Option ℚ)
  | writeOutputDoubleDistributionsToCSV (path : String)
  | saveMonteCarloDoubleDataToDataDotOutFile (samples : List (Option ℚ)) (microseconds : Option ℕ)
  | freeMonteCarloOutputSamples
deriving DecidableEq

/-- Events on the reporting path (stdout / JSON / CSV output); the auxiliary
Monte-Carlo data-file write and the buffer release are not reporting. -/
def isReportingEvent : Event → Bool
  | Event.saveMonteCarloDoubleDataToDataDotOutFile _ _ => false
  | Event.freeMonteCarloOutputSamples => false
  | _ => true

/-- Recognizes the auxiliary Monte-Carlo data-file write and the sample-buffer
release events. -/
def isSaveOrFreeEvent : Event → Bool
  | Event.saveMonteCarloDoubleDataToDataDotOutFile _ _ => true
  | Event.freeMonteCarloOutputSamples => true
  | _ => false

/-- Recognizes the CSV-file write event. -/
def isCsvWriteEvent : Event → Bool
  | Event.writeOutputDoubleDistributionsToCSV _ => true
  | _ => false

/-- The result of one run of `main`: the exit code, the trace of observable
side effects, and the final values of the program variables the claims refer
to. -/
structure MainResult where
  exitCode : ℕ
  events : List Event
  calibratedSensorOutput : Option ℚ
  meanAndVariance : Option MeanAndVariance
  monteCarloSamples : List (Option ℚ)

/-- Collects a list of possibly-indeterminate doubles into a determinate list;
`none` (any indeterminate element) poisons the whole result, modelling
garbage-in-garbage-out of arithmetic on uninitialized C values. -/
def sequenceOptions : List (Option ℚ) → Option (List ℚ)
  | [] => some []
  | none :: _ => none
  | some x :: rest => (sequenceOptions rest).map (fun l => x :: l)

/-- The `outputVariableNames` table of `src/main.c`, lines 141-147. -/
def outputVariableNames : ℕ → String
  | 0 => "Calibrated Sensor Output SDP8x6 Linear 500Pa"
  | 1 => "Calibrated Sensor Output SDP8x6 Linear 125Pa"
  | 2 => "Calibrated Sensor Output SDP8x6 Square 500Pa"
  | 3 => "Calibrated Sensor Output SDP8x6 Square 125Pa"
  | _ => ""

/-- The `outputDistributions` array of `main` before the loop: a C local
array, every entry indeterminate. -/
def initialOutputTable : ℕ → Option ℚ := fun _ => none

/-- The main computation loop of `src/main.c`, lines 174-192, run for the
given number of iterations: each iteration draws fresh inputs, calls
`calculateSensorOutput` (threading the output table), and, in Monte Carlo
mode only, appends the returned scalar to the sample buffer.  Returns
(final `calibratedSensorOutput`, final output table, sample buffer
contents). -/
def runIterations (arguments : CommandLineArguments) (uxhwDraw : ℕ → ℚ × ℚ) :
    ℕ → Option ℚ × (ℕ → Option ℚ) × List (Option ℚ)
  | 0 => (none, initialOutputTable, [])
  | n + 1 =>
    let prev := runIterations arguments uxhwDraw n
    let inputDistributions := setInputDistributionsViaUxHwCall (uxhwDraw n)
    let step := calculateSensorOutput arguments inputDistributions prev.2.1
    (step.1, step.2,
      if arguments.common.isMonteCarloMode then prev.2.2 ++ [step.1] else prev.2.2)

/-- The state of the loop variables when `main` reaches line 194. -/
def mainLoopFinal (arguments : CommandLineArguments) (uxhwDraw : ℕ → ℚ × ℚ) :
    Option ℚ × (ℕ → Option ℚ) × List (Option ℚ) :=
  runIterations arguments uxhwDraw arguments.common.numberOfMonteCarloIterations

/-- The contents of the `monteCarloOutputSamples` buffer after the loop. -/
def mainSamples (arguments : CommandLineArguments) (uxhwDraw : ℕ → ℚ × ℚ) :
    List (Option ℚ) :=
  (mainLoopFinal arguments uxhwDraw).2.2

/-- The `outputDistributions` table after the loop. -/
def mainOutputDistributions (arguments : CommandLineArguments) (uxhwDraw : ℕ → ℚ × ℚ) :
    ℕ → Option ℚ :=
  (mainLoopFinal arguments uxhwDraw).2.1

/-- `main.c` lines 198-204: in Monte Carlo mode (and only then) the sample
buffer is reduced to `meanAndVariance`. -/
def mainMeanAndVariance (arguments : CommandLineArguments) (uxhwDraw : ℕ → ℚ × ℚ) :
    Option MeanAndVariance :=
  if arguments.common.isMonteCarloMode then
    (sequenceOptions (mainSamples arguments uxhwDraw)).map
      (fun samples =>
        calculateMeanAndVarianceOfDoubleSamples samples
          arguments.common.numberOfMonteCarloIterations)
  else none

/-- The value of the `calibratedSensorOutput` variable after line 204: in
Monte Carlo mode it is overwritten with the reduction's mean, otherwise it
keeps the last loop value. -/
def mainCalibratedSensorOutput (arguments : CommandLineArguments) (uxhwDraw : ℕ → ℚ × ℚ) :
    Option ℚ :=
  if arguments.common.isMonteCarloMode then
    (mainMeanAndVariance arguments uxhwDraw).map MeanAndVariance.mean
  else (mainLoopFinal arguments uxhwDraw).1

/-- `main.c` lines 169-173 and 209-213: `cpuTimeUsedSeconds` is assigned
(from the start/stop `clock()` measurement, whose elapsed seconds the
`clockElapsedSeconds` oracle supplies) only when timing or benchmarking is
enabled; otherwise it stays indeterminate. -/
def mainCpuTimeUsedSeconds (arguments : CommandLineArguments) (clockElapsedSeconds : ℚ) :
    Option ℚ :=
  if arguments.common.isTimingEnabled || arguments.common.isBenchmarkingMode then
    some clockElapsedSeconds
  else none

/-- The value `(uint64_t)(cpuTimeUsedSeconds*1000000)` computed at lines 222
and 284; indeterminate when `cpuTimeUsedSeconds` was never assigned. -/
def mainMicroseconds (arguments : CommandLineArguments) (clockElapsedSeconds : ℚ) :
    Option ℕ :=
  (mainCpuTimeUsedSeconds arguments clockElapsedSeconds).map
    (fun t => castDoubleToUInt64 (t * 1000000))

/-- `main.c` lines 282-287: in Monte Carlo mode the sample buffer and the
microseconds value are written to the fixed `data.out` file and the buffer is
freed. -/
def mainMonteCarloFinalEvents (arguments : CommandLineArguments) (uxhwDraw : ℕ → ℚ × ℚ)
    (clockElapsedSeconds : ℚ) : List Event :=
  if arguments.common.isMonteCarloMode then
    [Event.saveMonteCarloDoubleDataToDataDotOutFile (mainSamples arguments uxhwDraw)
        (mainMicroseconds arguments clockElapsedSeconds),
      Event.freeMonteCarloOutputSamples]
  else []

/-- `main.c` lines 229-252: the JSON or plain-text report. -/
def mainReportEvents (arguments : CommandLineArguments) (uxhwDraw : ℕ → ℚ × ℚ) :
    List Event :=
  if !arguments.common.isOutputJSONMode then
    if arguments.common.outputSelect = kOutputDistributionIndexCalibratedSensorOutputMax then
      (List.range kOutputDistributionIndexCalibratedSensorOutputMax).map
        (fun i =>
          Event.printCalibratedValueAndProbabilities
            (mainOutputDistributions arguments uxhwDraw i) (outputVariableNames i))
    else
      [Event.printCalibratedValueAndProbabilities
          (mainCalibratedSensorOutput arguments uxhwDraw)
          (outputVariableNames arguments.common.outputSelect)]
  else [Event.printJSONFormattedOutput]

/-- `main.c` lines 257-260: the CPU-time line, printed only when timing is
enabled (and only on the non-benchmark path). -/
def mainTimingEvents (arguments : CommandLineArguments) (clockElapsedSeconds : ℚ) :
    List Event :=
  if arguments.common.isTimingEnabled then
    [Event.printTiming (mainCpuTimeUsedSeconds arguments clockElapsedSeconds)]
  else []

/-- The full event trace of `main.c` lines 215-287.  On the benchmark path
only the benchmark line is printed, then the Monte-Carlo save/free runs.  On
the non-benchmark path: report, then timing line, then — if requested — the
CSV write; a failing CSV write returns early (line 273), skipping the
Monte-Carlo save/free. -/
def mainEvents (arguments : CommandLineArguments) (uxhwDraw : ℕ → ℚ × ℚ)
    (clockElapsedSeconds : ℚ) (csvWriteFails : Bool) : List Event :=
  if arguments.common.isBenchmarkingMode then
    Event.benchmarkLine (mainCalibratedSensorOutput arguments uxhwDraw)
        (mainMicroseconds arguments clockElapsedSeconds)
      :: mainMonteCarloFinalEvents arguments uxhwDraw clockElapsedSeconds
  else
    mainReportEvents arguments uxhwDraw ++
      mainTimingEvents arguments clockElapsedSeconds ++
      (if arguments.common.isWriteToFileEnabled then
        Event.writeOutputDoubleDistributionsToCSV arguments.common.outputFilePath ::
          (if csvWriteFails then []
            else mainMonteCarloFinalEvents arguments uxhwDraw clockElapsedSeconds)
      else mainMonteCarloFinalEvents arguments uxhwDraw clockElapsedSeconds)

/-- The exit code of `main` once the loop has been reached: the error return
at line 273 (failing CSV write on the non-benchmark path) is the only
non-zero exit, otherwise `return 0` at line 289. -/
def mainExitCode (arguments : CommandLineArguments) (csvWriteFails : Bool) : ℕ :=
  if !arguments.common.isBenchmarkingMode && arguments.common.isWriteToFileEnabled &&
      csvWriteFails then
    kCommonConstantReturnTypeError
  else kCommonConstantReturnTypeSuccess

/-- One run of `main` (`src/main.c`, lines 129-290), after successful
argument parsing.  `allocationFails` models `checkedMalloc` failing at line
160 (which terminates with a non-zero code before the loop); the other
oracles are as in the per-phase definitions above. -/
def mainRun (arguments : CommandLineArguments) (uxhwDraw : ℕ → ℚ × ℚ)
    (clockElapsedSeconds : ℚ) (allocationFails csvWriteFails : Bool) : MainResult :=
  if arguments.common.isMonteCarloMode && allocationFails then
    { exitCode := kCommonConstantReturnTypeError
      events := []
      calibratedSensorOutput := none
      meanAndVariance := none
      monteCarloSamples := [] }
  else
    { exitCode := mainExitCode arguments csvWriteFails
      events := mainEvents arguments uxhwDraw clockElapsedSeconds csvWriteFails
      calibratedSensorOutput := mainCalibratedSensorOutput arguments uxhwDraw
      meanAndVariance := mainMeanAndVariance arguments uxhwDraw
      monteCarloSamples := mainSamples arguments uxhwDraw }

/-- Concrete midpoint inputs Aout = 1.5, Vdd = 3.7 used by witnesses. -/
def inputsMid : ℕ → ℚ :=
  fun i => if i = kInputDistributionIndexAout then 3 / 2 else 37 / 10

/-- Oracle that always draws the midpoint inputs. -/
def drawMid : ℕ → ℚ × ℚ := fun _ => (3 / 2, 37 / 10)

/-- Arguments selecting all four variants, no modes enabled. -/
def argsSelectAll : CommandLineArguments :=
  { common :=
    { outputSelect := 4
      numberOfMonteCarloIterations := 1
      isMonteCarloMode := false
      isOutputJSONMode := false
      isBenchmarkingMode := false
      isTimingEnabled := false
      isWriteToFileEnabled := false
      outputFilePath := "out.csv" } }

/-- Arguments: single variant Linear500Pa, JSON mode and write-to-file both
on, benchmarking off. -/
def argsJsonCsv : CommandLineArguments :=
  { common :=
    { outputSelect := 0
      numberOfMonteCarloIterations := 1
      isMonteCarloMode := false
      isOutputJSONMode := true
      isBenchmarkingMode := false
      isTimingEnabled := false
      isWriteToFileEnabled := true
      outputFilePath := "out.csv" } }

/-- Arguments: Monte Carlo mode with one iteration, single variant
Linear500Pa, no other flag set. -/
def argsMc : CommandLineArguments :=
  { common :=
    { outputSelect := 0
      numberOfMonteCarloIterations := 1
      isMonteCarloMode := true
      isOutputJSONMode := false
      isBenchmarkingMode := false
      isTimingEnabled := false
      isWriteToFileEnabled := false
      outputFilePath := "out.csv" } }

/-- Arguments: Monte Carlo mode plus write-to-file, no other flag set. -/
def argsMcCsv : CommandLineArguments :=
  { common :=
    { outputSelect := 0
      numberOfMonteCarloIterations := 1
      isMonteCarloMode := true
      isOutputJSONMode := false
      isBenchmarkingMode := false
      isTimingEnabled := false
      isWriteToFileEnabled := true
      outputFilePath := "out.csv" } }

/-- Arguments: benchmarking mode, single variant Linear500Pa. -/
def argsBench : CommandLineArguments :=
  { common :=
    { outputSelect := 0
      numberOfMonteCarloIterations := 1
      isMonteCarloMode := false
      isOutputJSONMode := false
      isBenchmarkingMode := true
      isTimingEnabled := false
      isWriteToFileEnabled := false
      outputFilePath := "out.csv" } }

theorem calculateSensorOutput_fst_table_irrel (arguments : CommandLineArguments)
    (inputDistributions : ℕ → ℚ) (t u : ℕ → Option ℚ) :
    (calculateSensorOutput arguments inputDistributions t).1 =
      (calculateSensorOutput arguments inputDistributions u).1 := by
  simp only [calculateSensorOutput]
  split_ifs <;> rfl

theorem calculateSensorOutput_fst_isSome (arguments : CommandLineArguments)
    (inputDistributions : ℕ → ℚ) (t : ℕ → Option ℚ)
    (hsel : arguments.common.outputSelect ≤ kOutputDistributionIndexCalibratedSensorOutputMax) :
    ((calculateSensorOutput arguments inputDistributions t).1).isSome = true := by
  obtain ⟨⟨s, n, mc, js, bm, te, wf, fp⟩⟩ := arguments
  simp only [kOutputDistributionIndexCalibratedSensorOutputMax] at hsel
  interval_cases s <;>
    simp [calculateSensorOutput, kOutputDistributionIndexCalibratedSensorOutputMax,
      kOutputDistributionIndexCalibratedSensorOutputSDP8x6Linear500Pa,
      kOutputDistributionIndexCalibratedSensorOutputSDP8x6Linear125Pa,
      kOutputDistributionIndexCalibratedSensorOutputSDP8x6Sqrt500Pa,
      kOutputDistributionIndexCalibratedSensorOutputSDP8x6Sqrt125Pa]

theorem runIterations_samples_of_monteCarlo (arguments : CommandLineArguments)
    (uxhwDraw : ℕ → ℚ × ℚ) (hmc : arguments.common.isMonteCarloMode = true) (n : ℕ) :
    (runIterations arguments uxhwDraw n).2.2 =
      (List.range n).map
        (fun i => (calculateSensorOutput arguments
          (setInputDistributionsViaUxHwCall (uxhwDraw i)) initialOutputTable).1) := by
  induction n with
  | zero => simp [runIterations]
  | succ n ih =>
    rw [List.range_succ, List.map_append]
    simp only [runIterations, hmc, if_true]
    rw [ih, List.map_singleton,
      calculateSensorOutput_fst_table_irrel arguments _ _ initialOutputTable]

theorem runIterations_samples_of_not_monteCarlo (arguments : CommandLineArguments)
    (uxhwDraw : ℕ → ℚ × ℚ) (hmc : arguments.common.isMonteCarloMode = false) (n : ℕ) :
    (runIterations arguments uxhwDraw n).2.2 = [] := by
  induction n with
  | zero => simp [runIterations]
  | succ n ih => simp only [runIterations, hmc, if_false, Bool.false_eq_true, ih]

theorem sequenceOptions_map_some (l : List ℚ) :
    sequenceOptions (l.map some) = some l := by
  induction l with
  | nil => simp [sequenceOptions]
  | cons a t ih => simp [sequenceOptions, ih]

theorem reduceOption_map_some_self (l : List ℚ) :
    (l.map some).reduceOption = l := by
  induction l with
  | nil => simp [List.reduceOption]
  | cons a t ih => rw [List.map_cons, List.reduceOption_cons_of_some, ih]

theorem eq_reduceOption_map_some_of_all_isSome (l : List (Option ℚ))
    (h : ∀ o ∈ l, o.isSome = true) : l = l.reduceOption.map some := by
  induction l with
  | nil => simp [List.reduceOption]
  | cons a t ih =>
    obtain ⟨v, rfl⟩ : ∃ v, a = some v := by
      cases a with
      | none => exact absurd (h none (by simp)) (by simp)
      | some v => exact ⟨v, rfl⟩
    rw [List.reduceOption_cons_of_some, List.map_cons]
    exact congrArg _ (ih (fun o ho => h o (by simp [ho])))

theorem not_csv_mem_mainReportEvents (arguments : CommandLineArguments)
    (uxhwDraw : ℕ → ℚ × ℚ) (p : String) :
    Event.writeOutputDoubleDistributionsToCSV p ∉ mainReportEvents arguments uxhwDraw := by
  unfold mainReportEvents
  split_ifs <;> simp

theorem not_csv_mem_mainTimingEvents (arguments : CommandLineArguments)
    (clockElapsedSeconds : ℚ) (p : String) :
    Event.writeOutputDoubleDistributionsToCSV p ∉
      mainTimingEvents arguments clockElapsedSeconds := by
  unfold mainTimingEvents
  split_ifs <;> simp

theorem not_csv_mem_mainMonteCarloFinalEvents (arguments : CommandLineArguments)
    (uxhwDraw : ℕ → ℚ × ℚ) (clockElapsedSeconds : ℚ) (p : String) :
    Event.writeOutputDoubleDistributionsToCSV p ∉
      mainMonteCarloFinalEvents arguments uxhwDraw clockElapsedSeconds := by
  unfold mainMonteCarloFinalEvents
  split_ifs <;> simp

theorem filter_saveOrFree_mainReportEvents (arguments : CommandLineArguments)
    (uxhwDraw : ℕ → ℚ × ℚ) :
    (mainReportEvents arguments uxhwDraw).filter isSaveOrFreeEvent = [] := by
  unfold mainReportEvents
  split_ifs <;> simp [isSaveOrFreeEvent, List.filter_eq_nil_iff]

theorem filter_saveOrFree_mainTimingEvents (arguments : CommandLineArguments)
    (clockElapsedSeconds : ℚ) :
    (mainTimingEvents arguments clockElapsedSeconds).filter isSaveOrFreeEvent = [] := by
  unfold mainTimingEvents
  split_ifs <;> simp [isSaveOrFreeEvent]

theorem filter_reporting_mainMonteCarloFinalEvents (arguments : CommandLineArguments)
    (uxhwDraw : ℕ → ℚ × ℚ) (clockElapsedSeconds : ℚ) :
    (mainMonteCarloFinalEvents arguments uxhwDraw clockElapsedSeconds).filter
      isReportingEvent = [] := by
  unfold mainMonteCarloFinalEvents
  split_ifs <;> simp [isReportingEvent]

theorem filter_saveOrFree_mainMonteCarloFinalEvents_of_monteCarlo
    (arguments : CommandLineArguments) (uxhwDraw : ℕ → ℚ × ℚ) (clockElapsedSeconds : ℚ)
    (hmc : arguments.common.isMonteCarloMode = true) :
    (mainMonteCarloFinalEvents arguments uxhwDraw clockElapsedSeconds).filter
        isSaveOrFreeEvent =
      mainMonteCarloFinalEvents arguments uxhwDraw clockElapsedSeconds := by
  unfold mainMonteCarloFinalEvents
  simp [hmc, isSaveOrFreeEvent]

theorem mainSamples_of_monteCarlo (arguments : CommandLineArguments)
    (uxhwDraw : ℕ → ℚ × ℚ) (hmc : arguments.common.isMonteCarloMode = true) :
    mainSamples arguments uxhwDraw =
      (List.range arguments.common.numberOfMonteCarloIterations).map
        (fun i => (calculateSensorOutput arguments
          (setInputDistributionsViaUxHwCall (uxhwDraw i)) initialOutputTable).1) := by
  simp only [mainSamples, mainLoopFinal]
  exact runIterations_samples_of_monteCarlo arguments uxhwDraw hmc _

/-- C1 (amended): the CSV-file reporting path runs exactly when the
write-to-file flag is set and the benchmarking flag is not set (the JSON flag
does not disable it), and a failing CSV write is the only output-mode failure
that makes the process exit with a non-zero code. -/
theorem csvPathTrigger_and_exitCode (arguments : CommandLineArguments)
    (uxhwDraw : ℕ → ℚ × ℚ) (clockElapsedSeconds : ℚ) (csvWriteFails : Bool) :
    ((Event.writeOutputDoubleDistributionsToCSV arguments.common.outputFilePath ∈
        (mainRun arguments uxhwDraw clockElapsedSeconds false csvWriteFails).events) ↔
      (arguments.common.isWriteToFileEnabled = true ∧
        arguments.common.isBenchmarkingMode = false)) ∧
    ((mainRun arguments uxhwDraw clockElapsedSeconds false csvWriteFails).exitCode ≠ 0 ↔
      (arguments.common.isWriteToFileEnabled = true ∧
        arguments.common.isBenchmarkingMode = false ∧ csvWriteFails = true)) := by
  have hrep := not_csv_mem_mainReportEvents arguments uxhwDraw
    arguments.common.outputFilePath
  have htim := not_csv_mem_mainTimingEvents arguments clockElapsedSeconds
    arguments.common.outputFilePath
  have hfin := not_csv_mem_mainMonteCarloFinalEvents arguments uxhwDraw clockElapsedSeconds
    arguments.common.outputFilePath
  simp only [mainRun, Bool.and_false, Bool.false_eq_true, if_false]
  constructor
  · cases hb : arguments.common.isBenchmarkingMode with
    | true =>
      simp only [mainEvents, hb, if_true, List.mem_cons]
      simp [hfin]
    | false =>
      simp only [mainEvents, hb, Bool.false_eq_true, if_false, List.mem_append]
      cases hw : arguments.common.isWriteToFileEnabled with
      | true =>
        simp [hrep, htim]
      | false =>
        simp [hrep, htim, hfin]
  · cases hb : arguments.common.isBenchmarkingMode with
    | true =>
      simp [mainExitCode, hb, kCommonConstantReturnTypeSuccess]
    | false =>
      cases hw : arguments.common.isWriteToFileEnabled with
      | true =>
        cases hf : csvWriteFails with
        | true =>
          simp [mainExitCode, hb, hw, hf, kCommonConstantReturnTypeError]
        | false =>
          simp [mainExitCode, hb, hw, hf, kCommonConstantReturnTypeSuccess]
      | false =>
        simp [mainExitCode, hb, hw, kCommonConstantReturnTypeSuccess]

/-- C1 counterexample: with the JSON flag AND the write-to-file flag both set
(benchmarking off), the CSV write still runs, contradicting the claim that the
CSV path runs only when the JSON flag is not set. -/
theorem csvPath_runs_despite_jsonMode :
    argsJsonCsv.common.isOutputJSONMode = true ∧
    Event.writeOutputDoubleDistributionsToCSV "out.csv" ∈
      (mainRun argsJsonCsv drawMid 0 false false).events := by
  refine ⟨rfl, ?_⟩
  simp [mainRun, mainEvents, mainReportEvents, mainTimingEvents,
    mainMonteCarloFinalEvents, argsJsonCsv]

/-- C2 (amended): in Monte Carlo mode (allocation succeeding), on every exit
path after the sampling loop EXCEPT the failing-CSV-write path the raw sample
sequence together with the recorded elapsed-microseconds value is persisted
to the auxiliary data file and the sample buffer is released; on the
failing-CSV-write path the process exits with a non-zero code without
persisting the samples and without releasing the buffer. -/
theorem monteCarloPersistence_exit_paths (arguments : CommandLineArguments)
    (uxhwDraw : ℕ → ℚ × ℚ) (clockElapsedSeconds : ℚ) (csvWriteFails : Bool)
    (hmc : arguments.common.isMonteCarloMode = true) :
    ((arguments.common.isBenchmarkingMode = true ∨
        arguments.common.isWriteToFileEnabled = false ∨ csvWriteFails = false) →
      (Event.saveMonteCarloDoubleDataToDataDotOutFile (mainSamples arguments uxhwDraw)
          (mainMicroseconds arguments clockElapsedSeconds) ∈
        (mainRun arguments uxhwDraw clockElapsedSeconds false csvWriteFails).events ∧
      Event.freeMonteCarloOutputSamples ∈
        (mainRun arguments uxhwDraw clockElapsedSeconds false csvWriteFails).events)) ∧
    ((arguments.common.isBenchmarkingMode = false ∧
        arguments.common.isWriteToFileEnabled = true ∧ csvWriteFails = true) →
      ((mainRun arguments uxhwDraw clockElapsedSeconds false csvWriteFails).exitCode =
          kCommonConstantReturnTypeError ∧
        (mainRun arguments uxhwDraw clockElapsedSeconds false csvWriteFails).events.filter
          isSaveOrFreeEvent = [])) := by
  simp only [mainRun, Bool.and_false, Bool.false_eq_true, if_false]
  constructor
  · intro hgood
    have hsave : Event.saveMonteCarloDoubleDataToDataDotOutFile
        (mainSamples arguments uxhwDraw)
        (mainMicroseconds arguments clockElapsedSeconds) ∈
        mainMonteCarloFinalEvents arguments uxhwDraw clockElapsedSeconds := by
      simp [mainMonteCarloFinalEvents, hmc]
    have hfree : Event.freeMonteCarloOutputSamples ∈
        mainMonteCarloFinalEvents arguments uxhwDraw clockElapsedSeconds := by
      simp [mainMonteCarloFinalEvents, hmc]
    cases hb : arguments.common.isBenchmarkingMode with
    | true =>
      constructor <;> simp [mainEvents, hb, hsave, hfree]
    | false =>
      cases hw : arguments.common.isWriteToFileEnabled with
      | true =>
        have hf : csvWriteFails = false := by
          rcases hgood with h | h | h
          · rw [hb] at h; exact absurd h (by simp)
          · rw [hw] at h; exact absurd h (by simp)
          · exact h
        constructor <;>
          simp [mainEvents, hb, hw, hf, List.mem_append, hsave, hfree]
      | false =>
        constructor <;>
          simp [mainEvents, hb, hw, List.mem_append, hsave, hfree]
  · rintro ⟨hb, hw, hf⟩
    refine ⟨by simp [mainExitCode, hb, hw, hf], ?_⟩
    simp only [mainEvents, hb, Bool.false_eq_true, if_false, hw, if_true, hf,
      List.filter_append]
    rw [filter_saveOrFree_mainReportEvents, filter_saveOrFree_mainTimingEvents]
    simp [isSaveOrFreeEvent]

theorem monteCarloPersistence_exit_paths_witness :
    argsMc.common.isMonteCarloMode = true ∧
    Event.saveMonteCarloDoubleDataToDataDotOutFile (mainSamples argsMc drawMid)
        (mainMicroseconds argsMc 0) ∈ (mainRun argsMc drawMid 0 false false).events ∧
    Event.freeMonteCarloOutputSamples ∈ (mainRun argsMc drawMid 0 false false).events :=
  ⟨rfl,
    ((monteCarloPersistence_exit_paths argsMc drawMid 0 false rfl).1
      (Or.inr (Or.inr rfl))).1,
    ((monteCarloPersistence_exit_paths argsMc drawMid 0 false rfl).1
      (Or.inr (Or.inr rfl))).2⟩

/-- C2 counterexample: in Monte Carlo mode with write-to-file set and the CSV
write failing, the run exits with a non-zero code, the auxiliary data file is
never written and the sample buffer is never freed — contradicting the claim
that persistence and release happen on every exit path after the loop. -/
theorem monteCarloPersistence_skipped_on_csv_failure :
    argsMcCsv.common.isMonteCarloMode = true ∧
    (mainRun argsMcCsv drawMid 0 false true).exitCode ≠ 0 ∧
    (mainRun argsMcCsv drawMid 0 false true).events.filter isSaveOrFreeEvent = [] ∧
    Event.freeMonteCarloOutputSamples ∉ (mainRun argsMcCsv drawMid 0 false true).events := by
  refine ⟨rfl, ?_, ?_, ?_⟩
  · simp [mainRun, mainExitCode, argsMcCsv, kCommonConstantReturnTypeError]
  · simp only [mainRun, Bool.and_false, Bool.false_eq_true, if_false]
    simp only [mainEvents, argsMcCsv, Bool.false_eq_true, if_false, if_true,
      List.filter_append, List.filter_cons]
    rw [filter_saveOrFree_mainReportEvents, filter_saveOrFree_mainTimingEvents]
    simp [isSaveOrFreeEvent]
  · simp [mainRun, mainEvents, mainReportEvents, mainTimingEvents, argsMcCsv,
      kOutputDistributionIndexCalibratedSensorOutputMax]

/-- C3 counterexample: at the midpoint inputs Aout = 1.5, Vdd = 3.7 the
engine's Linear500Pa output is 5700/37 = 154.054054… and its Linear125Pa
output is 1444/37 = 39.027027…, not within 1e-9 of the claimed values
−46.62162… and 39.97297… (the distances are ≈ 200 and ≈ 0.95). -/
theorem midpoint_linear_values_mismatch :
    (calculateSensorOutput argsSelectAll inputsMid initialOutputTable).2
        kOutputDistributionIndexCalibratedSensorOutputSDP8x6Linear500Pa =
      some (5700 / 37) ∧
    (calculateSensorOutput argsSelectAll inputsMid initialOutputTable).2
        kOutputDistributionIndexCalibratedSensorOutputSDP8x6Linear125Pa =
      some (1444 / 37) ∧
    ¬(|(5700 : ℚ) / 37 - (-46.62162)| ≤ 1 / 1000000000) ∧
    ¬(|(1444 : ℚ) / 37 - 39.97297| ≤ 1 / 1000000000) := by
  refine ⟨?_, ?_, ?_, ?_⟩
  · norm_num [calculateSensorOutput, argsSelectAll, inputsMid, initialOutputTable,
      Function.update, kInputDistributionIndexAout, kInputDistributionIndexVdd,
      kOutputDistributionIndexCalibratedSensorOutputMax,
      kOutputDistributionIndexCalibratedSensorOutputSDP8x6Linear500Pa,
      kOutputDistributionIndexCalibratedSensorOutputSDP8x6Linear125Pa,
      kOutputDistributionIndexCalibratedSensorOutputSDP8x6Sqrt500Pa,
      kOutputDistributionIndexCalibratedSensorOutputSDP8x6Sqrt125Pa,
      kSensorCalibrationConstantSDP8x6Linear500Pa1,
      kSensorCalibrationConstantSDP8x6Linear500Pa2]
  · norm_num [calculateSensorOutput, argsSelectAll, inputsMid, initialOutputTable,
      Function.update, kInputDistributionIndexAout, kInputDistributionIndexVdd,
      kOutputDistributionIndexCalibratedSensorOutputMax,
      kOutputDistributionIndexCalibratedSensorOutputSDP8x6Linear500Pa,
      kOutputDistributionIndexCalibratedSensorOutputSDP8x6Linear125Pa,
      kOutputDistributionIndexCalibratedSensorOutputSDP8x6Sqrt500Pa,
      kOutputDistributionIndexCalibratedSensorOutputSDP8x6Sqrt125Pa,
      kSensorCalibrationConstantSDP8x6Linear125Pa1,
      kSensorCalibrationConstantSDP8x6Linear125Pa2]
  · rw [abs_le]
    push_neg
    norm_num
  · rw [abs_le]
    push_neg
    norm_num

/-- C3 (amended): for the midpoint inputs Aout = 1.5 and Vdd = 3.7 the
calibration engine's Linear500Pa output equals 750·1.5/3.7 − 150 =
154.05405405…, and its Linear125Pa output equals 190·1.5/3.7 − 38 =
39.02702702…, each matched to tolerance 1e-9. -/
theorem midpoint_linear_values :
    (calculateSensorOutput argsSelectAll inputsMid initialOutputTable).2
        kOutputDistributionIndexCalibratedSensorOutputSDP8x6Linear500Pa =
      some (750 * (3 / 2) / (37 / 10) - 150) ∧
    |750 * ((3 : ℚ) / 2) / (37 / 10) - 150 - 154.054054054| ≤ 1 / 1000000000 ∧
    (calculateSensorOutput argsSelectAll inputsMid initialOutputTable).2
        kOutputDistributionIndexCalibratedSensorOutputSDP8x6Linear125Pa =
      some (190 * (3 / 2) / (37 / 10) - 38) ∧
    |190 * ((3 : ℚ) / 2) / (37 / 10) - 38 - 39.027027027| ≤ 1 / 1000000000 := by
  refine ⟨?_, ?_, ?_, ?_⟩
  · norm_num [calculateSensorOutput, argsSelectAll, inputsMid, initialOutputTable,
      Function.update, kInputDistributionIndexAout, kInputDistributionIndexVdd,
      kOutputDistributionIndexCalibratedSensorOutputMax,
      kOutputDistributionIndexCalibratedSensorOutputSDP8x6Linear500Pa,
      kOutputDistributionIndexCalibratedSensorOutputSDP8x6Linear125Pa,
      kOutputDistributionIndexCalibratedSensorOutputSDP8x6Sqrt500Pa,
      kOutputDistributionIndexCalibratedSensorOutputSDP8x6Sqrt125Pa,
      kSensorCalibrationConstantSDP8x6Linear500Pa1,
      kSensorCalibrationConstantSDP8x6Linear500Pa2]
  · rw [abs_le]
    constructor <;> norm_num
  · norm_num [calculateSensorOutput, argsSelectAll, inputsMid, initialOutputTable,
      Function.update, kInputDistributionIndexAout, kInputDistributionIndexVdd,
      kOutputDistributionIndexCalibratedSensorOutputMax,
      kOutputDistributionIndexCalibratedSensorOutputSDP8x6Linear500Pa,
      kOutputDistributionIndexCalibratedSensorOutputSDP8x6Linear125Pa,
      kOutputDistributionIndexCalibratedSensorOutputSDP8x6Sqrt500Pa,
      kOutputDistributionIndexCalibratedSensorOutputSDP8x6Sqrt125Pa,
      kSensorCalibrationConstantSDP8x6Linear125Pa1,
      kSensorCalibrationConstantSDP8x6Linear125Pa2]
  · rw [abs_le]
    constructor <;> norm_num

/-- C4: for every input pair with Vdd ≠ 0, whenever a variant is computed the
engine produces Linear500Pa = 750·Aout/Vdd − 150, Linear125Pa =
190·Aout/Vdd − 38, Sqrt500Pa = sign(Aout/Vdd − 0.5)·(Aout/(Vdd·0.4) − 1.25)²·525
and Sqrt125Pa = the same square-root form with final factor 133. -/
theorem calibration_formulas (arguments : CommandLineArguments)
    (inputDistributions : ℕ → ℚ) (outputDistributions : ℕ → Option ℚ)
    (_hVdd : inputDistributions kInputDistributionIndexVdd ≠ 0) :
    ((arguments.common.outputSelect = kOutputDistributionIndexCalibratedSensorOutputMax ∨
        arguments.common.outputSelect =
          kOutputDistributionIndexCalibratedSensorOutputSDP8x6Linear500Pa) →
      (calculateSensorOutput arguments inputDistributions outputDistributions).2
          kOutputDistributionIndexCalibratedSensorOutputSDP8x6Linear500Pa =
        some (750 * inputDistributions kInputDistributionIndexAout /
            inputDistributions kInputDistributionIndexVdd - 150)) ∧
    ((arguments.common.outputSelect = kOutputDistributionIndexCalibratedSensorOutputMax ∨
        arguments.common.outputSelect =
          kOutputDistributionIndexCalibratedSensorOutputSDP8x6Linear125Pa) →
      (calculateSensorOutput arguments inputDistributions outputDistributions).2
          kOutputDistributionIndexCalibratedSensorOutputSDP8x6Linear125Pa =
        some (190 * inputDistributions kInputDistributionIndexAout /
            inputDistributions kInputDistributionIndexVdd - 38)) ∧
    ((arguments.common.outputSelect = kOutputDistributionIndexCalibratedSensorOutputMax ∨
        arguments.common.outputSelect =
          kOutputDistributionIndexCalibratedSensorOutputSDP8x6Sqrt500Pa) →
      (calculateSensorOutput arguments inputDistributions outputDistributions).2
          kOutputDistributionIndexCalibratedSensorOutputSDP8x6Sqrt500Pa =
        some (sign (inputDistributions kInputDistributionIndexAout /
              inputDistributions kInputDistributionIndexVdd - 0.5) *
          (inputDistributions kInputDistributionIndexAout /
              (inputDistributions kInputDistributionIndexVdd * 0.4) - 1.25) ^ 2 * 525)) ∧
    ((arguments.common.outputSelect = kOutputDistributionIndexCalibratedSensorOutputMax ∨
        arguments.common.outputSelect =
          kOutputDistributionIndexCalibratedSensorOutputSDP8x6Sqrt125Pa) →
      (calculateSensorOutput arguments inputDistributions outputDistributions).2
          kOutputDistributionIndexCalibratedSensorOutputSDP8x6Sqrt125Pa =
        some (sign (inputDistributions kInputDistributionIndexAout /
              inputDistributions kInputDistributionIndexVdd - 0.5) *
          (inputDistributions kInputDistributionIndexAout /
              (inputDistributions kInputDistributionIndexVdd * 0.4) - 1.25) ^ 2 * 133)) := by
  refine ⟨?_, ?_, ?_, ?_⟩ <;> rintro (h | h) <;>
    simp [calculateSensorOutput, h, Function.update,
      kOutputDistributionIndexCalibratedSensorOutputMax,
      kOutputDistributionIndexCalibratedSensorOutputSDP8x6Linear500Pa,
      kOutputDistributionIndexCalibratedSensorOutputSDP8x6Linear125Pa,
      kOutputDistributionIndexCalibratedSensorOutputSDP8x6Sqrt500Pa,
      kOutputDistributionIndexCalibratedSensorOutputSDP8x6Sqrt125Pa,
      kSensorCalibrationConstantSDP8x6Linear500Pa1,
      kSensorCalibrationConstantSDP8x6Linear500Pa2,
      kSensorCalibrationConstantSDP8x6Linear125Pa1,
      kSensorCalibrationConstantSDP8x6Linear125Pa2,
      kSensorCalibrationConstantSDP8x6Sqrt500Pa1,
      kSensorCalibrationConstantSDP8x6Sqrt500Pa2,
      kSensorCalibrationConstantSDP8x6Sqrt500Pa3,
      kSensorCalibrationConstantSDP8x6Sqrt500Pa4,
      kSensorCalibrationConstantSDP8x6Sqrt125Pa1,
      kSensorCalibrationConstantSDP8x6Sqrt125Pa2,
      kSensorCalibrationConstantSDP8x6Sqrt125Pa3,
      kSensorCalibrationConstantSDP8x6Sqrt125Pa4]

theorem calibration_formulas_witness :
    inputsMid kInputDistributionIndexVdd ≠ 0 ∧
    (calculateSensorOutput argsSelectAll inputsMid initialOutputTable).2
        kOutputDistributionIndexCalibratedSensorOutputSDP8x6Linear500Pa =
      some (750 * inputsMid kInputDistributionIndexAout /
          inputsMid kInputDistributionIndexVdd - 150) :=
  ⟨by norm_num [inputsMid, kInputDistributionIndexVdd, kInputDistributionIndexAout],
    (calibration_formulas argsSelectAll inputsMid initialOutputTable
      (by norm_num [inputsMid, kInputDistributionIndexVdd, kInputDistributionIndexAout])).1
      (Or.inl rfl)⟩

/-- C5: the sign function returns exactly 0 when its argument is 0, and for
every argument x ≠ 0 returns x/|x|, which is +1 or −1. -/
theorem sign_zero_and_unit :
    sign 0 = 0 ∧ ∀ x : ℚ, x ≠ 0 → (sign x = x / |x| ∧ (sign x = 1 ∨ sign x = -1)) := by
  refine ⟨by simp [sign], fun x hx => ⟨by simp [sign, hx], ?_⟩⟩
  rcases lt_or_gt_of_ne hx with h | h
  · right
    rw [sign, if_neg hx, abs_of_neg h, div_neg, div_self hx]
  · left
    rw [sign, if_neg hx, abs_of_pos h, div_self hx]

theorem sign_zero_and_unit_witness :
    (-5 : ℚ) ≠ 0 ∧ sign (-5) = (-5) / |(-5 : ℚ)| :=
  ⟨by norm_num, (sign_zero_and_unit.2 (-5) (by norm_num)).1⟩

/-- C6: when the selection is "all", the engine's scalar return value equals
the last variant computed in the fixed order, i.e. the Sqrt125Pa table entry
(and its formula), and in Monte Carlo mode this returned scalar is exactly
what is appended to the sample buffer on each iteration. -/
theorem selectAll_returns_last_variant (arguments : CommandLineArguments)
    (inputDistributions : ℕ → ℚ) (outputDistributions : ℕ → Option ℚ)
    (uxhwDraw : ℕ → ℚ × ℚ)
    (hall : arguments.common.outputSelect =
      kOutputDistributionIndexCalibratedSensorOutputMax) :
    ((calculateSensorOutput arguments inputDistributions outputDistributions).1 =
      (calculateSensorOutput arguments inputDistributions outputDistributions).2
        kOutputDistributionIndexCalibratedSensorOutputSDP8x6Sqrt125Pa) ∧
    ((calculateSensorOutput arguments inputDistributions outputDistributions).1 =
      some (sign (inputDistributions kInputDistributionIndexAout /
            inputDistributions kInputDistributionIndexVdd -
            kSensorCalibrationConstantSDP8x6Sqrt125Pa1) *
        (inputDistributions kInputDistributionIndexAout /
            (inputDistributions kInputDistributionIndexVdd *
              kSensorCalibrationConstantSDP8x6Sqrt125Pa2) -
            kSensorCalibrationConstantSDP8x6Sqrt125Pa3) ^ 2 *
        kSensorCalibrationConstantSDP8x6Sqrt125Pa4)) ∧
    (arguments.common.isMonteCarloMode = true →
      mainSamples arguments uxhwDraw =
        (List.range arguments.common.numberOfMonteCarloIterations).map
          (fun i => (calculateSensorOutput arguments
            (setInputDistributionsViaUxHwCall (uxhwDraw i)) initialOutputTable).1)) := by
  refine ⟨?_, ?_, fun hmc => mainSamples_of_monteCarlo arguments uxhwDraw hmc⟩ <;>
    simp [calculateSensorOutput, hall, Function.update,
      kOutputDistributionIndexCalibratedSensorOutputMax,
      kOutputDistributionIndexCalibratedSensorOutputSDP8x6Sqrt125Pa]

theorem selectAll_returns_last_variant_witness :
    argsSelectAll.common.outputSelect = kOutputDistributionIndexCalibratedSensorOutputMax ∧
    (calculateSensorOutput argsSelectAll inputsMid initialOutputTable).1 =
      (calculateSensorOutput argsSelectAll inputsMid initialOutputTable).2
        kOutputDistributionIndexCalibratedSensorOutputSDP8x6Sqrt125Pa :=
  ⟨rfl, (selectAll_returns_last_variant argsSelectAll inputsMid initialOutputTable
    drawMid rfl).1⟩

/-- C7: with selection "all" one calibration pass writes all four entries of
the output table; with a single named variant it writes exactly that entry
and leaves every other entry of the table unmodified. -/
theorem output_table_frame (arguments : CommandLineArguments)
    (inputDistributions : ℕ → ℚ) (outputDistributions : ℕ → Option ℚ) :
    ((arguments.common.outputSelect = kOutputDistributionIndexCalibratedSensorOutputMax →
      ∀ j < kOutputDistributionIndexCalibratedSensorOutputMax,
        ((calculateSensorOutput arguments inputDistributions outputDistributions).2 j).isSome =
          true)) ∧
    (arguments.common.outputSelect < kOutputDistributionIndexCalibratedSensorOutputMax →
      (((calculateSensorOutput arguments inputDistributions outputDistributions).2
          arguments.common.outputSelect).isSome = true ∧
        ∀ j, j ≠ arguments.common.outputSelect →
          (calculateSensorOutput arguments inputDistributions outputDistributions).2 j =
            outputDistributions j)) := by
  obtain ⟨⟨s, n, mc, js, bm, te, wf, fp⟩⟩ := arguments
  simp only [kOutputDistributionIndexCalibratedSensorOutputMax]
  constructor
  · rintro rfl j hj
    interval_cases j <;>
      simp [calculateSensorOutput, Function.update,
        kOutputDistributionIndexCalibratedSensorOutputMax,
        kOutputDistributionIndexCalibratedSensorOutputSDP8x6Linear500Pa,
        kOutputDistributionIndexCalibratedSensorOutputSDP8x6Linear125Pa,
        kOutputDistributionIndexCalibratedSensorOutputSDP8x6Sqrt500Pa,
        kOutputDistributionIndexCalibratedSensorOutputSDP8x6Sqrt125Pa]
  · intro hs
    interval_cases s <;>
      refine ⟨by simp [calculateSensorOutput, Function.update,
          kOutputDistributionIndexCalibratedSensorOutputMax,
          kOutputDistributionIndexCalibratedSensorOutputSDP8x6Linear500Pa,
          kOutputDistributionIndexCalibratedSensorOutputSDP8x6Linear125Pa,
          kOutputDistributionIndexCalibratedSensorOutputSDP8x6Sqrt500Pa,
          kOutputDistributionIndexCalibratedSensorOutputSDP8x6Sqrt125Pa],
        fun j hj => by
          simp [calculateSensorOutput,
            kOutputDistributionIndexCalibratedSensorOutputMax,
            kOutputDistributionIndexCalibratedSensorOutputSDP8x6Linear500Pa,
            kOutputDistributionIndexCalibratedSensorOutputSDP8x6Linear125Pa,
            kOutputDistributionIndexCalibratedSensorOutputSDP8x6Sqrt500Pa,
            kOutputDistributionIndexCalibratedSensorOutputSDP8x6Sqrt125Pa,
            Function.update_noteq hj]⟩

theorem output_table_frame_witness :
    kOutputDistributionIndexCalibratedSensorOutputSDP8x6Sqrt500Pa <
      kOutputDistributionIndexCalibratedSensorOutputMax ∧
    (calculateSensorOutput
        { common :=
          { outputSelect := 2, numberOfMonteCarloIterations := 1,
            isMonteCarloMode := false, isOutputJSONMode := false,
            isBenchmarkingMode := false, isTimingEnabled := false,
            isWriteToFileEnabled := false, outputFilePath := "out.csv" } }
        inputsMid initialOutputTable).2 0 = initialOutputTable 0 :=
  ⟨by decide,
    ((output_table_frame
      { common :=
        { outputSelect := 2, numberOfMonteCarloIterations := 1,
          isMonteCarloMode := false, isOutputJSONMode := false,
          isBenchmarkingMode := false, isTimingEnabled := false,
          isWriteToFileEnabled := false, outputFilePath := "out.csv" } }
      inputsMid initialOutputTable).2 (by decide)).2 0 (by decide)⟩

/-- C8: the mean/variance reduction over the Monte Carlo sample set is
performed iff Monte Carlo mode is active; afterwards the process-level
calibrated output equals the reduction's mean, the mean is the arithmetic
average of the collected samples, and the variance is nonnegative. -/
theorem meanVariance_reduction (arguments : CommandLineArguments)
    (uxhwDraw : ℕ → ℚ × ℚ) (clockElapsedSeconds : ℚ) (csvWriteFails : Bool)
    (hsel : arguments.common.outputSelect ≤
      kOutputDistributionIndexCalibratedSensorOutputMax) :
    (arguments.common.isMonteCarloMode = true →
      ((mainRun arguments uxhwDraw clockElapsedSeconds false csvWriteFails).monteCarloSamples =
        (mainRun arguments uxhwDraw clockElapsedSeconds false
          csvWriteFails).monteCarloSamples.reduceOption.map some ∧
      (mainRun arguments uxhwDraw clockElapsedSeconds false
          csvWriteFails).monteCarloSamples.length =
        arguments.common.numberOfMonteCarloIterations ∧
      (mainRun arguments uxhwDraw clockElapsedSeconds false
          csvWriteFails).meanAndVariance.map MeanAndVariance.mean =
        some ((mainRun arguments uxhwDraw clockElapsedSeconds false
            csvWriteFails).monteCarloSamples.reduceOption.sum /
          ((mainRun arguments uxhwDraw clockElapsedSeconds false
            csvWriteFails).monteCarloSamples.reduceOption.length : ℚ)) ∧
      (mainRun arguments uxhwDraw clockElapsedSeconds false
          csvWriteFails).calibratedSensorOutput =
        (mainRun arguments uxhwDraw clockElapsedSeconds false
          csvWriteFails).meanAndVariance.map MeanAndVariance.mean ∧
      0 ≤ ((mainRun arguments uxhwDraw clockElapsedSeconds false
          csvWriteFails).meanAndVariance.map MeanAndVariance.variance).getD 0)) ∧
    (arguments.common.isMonteCarloMode = false →
      (mainRun arguments uxhwDraw clockElapsedSeconds false
        csvWriteFails).meanAndVariance = none) := by
  simp only [mainRun, Bool.and_false, Bool.false_eq_true, if_false]
  constructor
  · intro hmc
    have hsamp := mainSamples_of_monteCarlo arguments uxhwDraw hmc
    have hall : ∀ o ∈ mainSamples arguments uxhwDraw, o.isSome = true := by
      rw [hsamp]
      intro o ho
      rw [List.mem_map] at ho
      obtain ⟨i, _, rfl⟩ := ho
      exact calculateSensorOutput_fst_isSome arguments _ _ hsel
    have hsome := eq_reduceOption_map_some_of_all_isSome _ hall
    have hlen : (mainSamples arguments uxhwDraw).length =
        arguments.common.numberOfMonteCarloIterations := by
      rw [hsamp, List.length_map, List.length_range]
    have hlenv : ((mainSamples arguments uxhwDraw).reduceOption).length =
        arguments.common.numberOfMonteCarloIterations := by
      conv_rhs => rw [← hlen]
      conv_rhs => rw [hsome]
      rw [List.length_map]
    have hseq : sequenceOptions (mainSamples arguments uxhwDraw) =
        some ((mainSamples arguments uxhwDraw).reduceOption) := by
      conv_lhs => rw [hsome]
      exact sequenceOptions_map_some _
    have hmv : mainMeanAndVariance arguments uxhwDraw =
        some (calculateMeanAndVarianceOfDoubleSamples
          ((mainSamples arguments uxhwDraw).reduceOption)
          arguments.common.numberOfMonteCarloIterations) := by
      simp [mainMeanAndVariance, hmc, hseq]
    refine ⟨hsome, hlen, ?_, ?_, ?_⟩
    · rw [hmv, hlenv, Option.map_some']
      rfl
    · simp [mainCalibratedSensorOutput, hmc]
    · rw [hmv, Option.map_some', Option.getD_some]
      simp only [calculateMeanAndVarianceOfDoubleSamples]
      apply div_nonneg
      · apply List.sum_nonneg
        intro a ha
        rw [List.mem_map] at ha
        obtain ⟨x, _, rfl⟩ := ha
        exact sq_nonneg _
      · exact Nat.cast_nonneg _
  · intro hmc
    simp [mainMeanAndVariance, hmc]

theorem meanVariance_reduction_witness :
    argsMc.common.outputSelect ≤ kOutputDistributionIndexCalibratedSensorOutputMax ∧
    (mainRun argsMc drawMid 0 false false).meanAndVariance.map MeanAndVariance.mean =
      some ((mainRun argsMc drawMid 0 false false).monteCarloSamples.reduceOption.sum /
        ((mainRun argsMc drawMid 0 false false).monteCarloSamples.reduceOption.length : ℚ)) :=
  ⟨by decide,
    ((meanVariance_reduction argsMc drawMid 0 false (by decide)).1 rfl).2.2.1⟩

/-- C9: with the benchmarking flag set, regardless of output-variant
selection, the entire reporting-path output is exactly the one benchmark line
carrying the calibrated value and the elapsed microseconds (the measured CPU
seconds times one million, truncated); no plain-text, JSON or CSV reporting
occurs. -/
theorem benchmark_single_line (arguments : CommandLineArguments)
    (uxhwDraw : ℕ → ℚ × ℚ) (clockElapsedSeconds : ℚ) (csvWriteFails : Bool)
    (hb : arguments.common.isBenchmarkingMode = true) :
    (mainRun arguments uxhwDraw clockElapsedSeconds false csvWriteFails).events.filter
        isReportingEvent =
      [Event.benchmarkLine (mainCalibratedSensorOutput arguments uxhwDraw)
        (some (castDoubleToUInt64 (clockElapsedSeconds * 1000000)))] := by
  simp only [mainRun, Bool.and_false, Bool.false_eq_true, if_false]
  simp only [mainEvents, hb, if_true, List.filter_cons]
  rw [filter_reporting_mainMonteCarloFinalEvents]
  simp [isReportingEvent, mainMicroseconds, mainCpuTimeUsedSeconds, hb]

theorem benchmark_single_line_witness :
    argsBench.common.isBenchmarkingMode = true ∧
    (mainRun argsBench drawMid (3 / 2) false false).events.filter isReportingEvent =
      [Event.benchmarkLine (mainCalibratedSensorOutput argsBench drawMid)
        (some (castDoubleToUInt64 ((3 / 2) * 1000000)))] :=
  ⟨rfl, benchmark_single_line argsBench drawMid (3 / 2) false rfl⟩

/-- C10: in Monte Carlo mode with both the timing and the benchmarking flag
disabled, the run still persists the auxiliary Monte Carlo data file, but the
microseconds value it passes comes from `cpuTimeUsedSeconds` which was never
assigned (no clock measurement ran): the persisted time value is
indeterminate (`none`), exhibiting the uninitialized read at line 284 of
`src/main.c`. -/
theorem uninitialized_cpuTime_persisted :
    argsMc.common.isMonteCarloMode = true ∧
    argsMc.common.isTimingEnabled = false ∧
    argsMc.common.isBenchmarkingMode = false ∧
    mainCpuTimeUsedSeconds argsMc 0 = none ∧
    Event.saveMonteCarloDoubleDataToDataDotOutFile (mainSamples argsMc drawMid) none ∈
      (mainRun argsMc drawMid 0 false false).events := by
  have hm : mainMicroseconds argsMc 0 = none := by
    simp [mainMicroseconds, mainCpuTimeUsedSeconds, argsMc]
  refine ⟨rfl, rfl, rfl, by simp [mainCpuTimeUsedSeconds, argsMc], ?_⟩
  rw [← hm]
  simp [mainRun, mainEvents, mainMonteCarloFinalEvents, argsMc]

end SDP8xx
